import Mathlib

/-!
Verification of the MindGuard scheduled check-in and recommendation engine.

The definitions below are shallow embeddings of the TypeScript source:
  - the Check-In Ledger (MindGuard.saveCheckIn in src/server.ts),
  - the Scheduler (MindGuard.scheduleDailyCheckIn in src/server.ts and the
    earlier variant of the same method),
  - the Preference Store (MindGuard.getAgentName, MindGuard.updateAgentName),
  - the Recommendation Selector (getMindfulnessRecommendations in src/app.tsx
    and the /internal/get-recommendations route in src/server.ts),
  - the Check-In Orchestrator (CheckInWorkflow.run in
    src/workflows/checkInWorkflow.ts).

Database tables are modelled as lists of rows in insertion order; the
environment (current user id, current date, fresh ids, timestamps, HTTP
responses of the external collaborators) is passed explicitly as arguments.
Fallible operations return Except; a returned error models a thrown
exception, after which no write has happened (in the source every validation
throw precedes the corresponding SQL statement).
-/

/-- JS string truthiness for an optional string field: undefined/null and the
empty string are falsy. -/
def jsTruthy : Option String → Bool
  | none => false
  | some v => v ≠ ""

/-- ASCII lower-casing of one character, as Char.toLower does and as
String.prototype.toLowerCase does on ASCII input (the only inputs the claims
exercise). -/
def lowerChar (c : Char) : Char :=
  if c.toNat ≥ 65 ∧ c.toNat ≤ 90 then Char.ofNat (c.toNat + 32) else c

/-- Model of String.prototype.toLowerCase. -/
def strToLower (s : String) : String := String.mk (s.data.map lowerChar)

/-- The characters String.prototype.trim strips: the ECMAScript WhiteSpace
and LineTerminator sets — tab, LF, VT, FF, CR, space, NBSP, the Zs category
(U+1680, U+2000..U+200A, U+202F, U+205F, U+3000), LS, PS and the BOM. -/
def jsWhitespace (c : Char) : Bool :=
  c.toNat = 0x09 ∨ c.toNat = 0x0A ∨ c.toNat = 0x0B ∨ c.toNat = 0x0C ∨
  c.toNat = 0x0D ∨ c.toNat = 0x20 ∨ c.toNat = 0xA0 ∨ c.toNat = 0x1680 ∨
  (0x2000 ≤ c.toNat ∧ c.toNat ≤ 0x200A) ∨ c.toNat = 0x2028 ∨
  c.toNat = 0x2029 ∨ c.toNat = 0x202F ∨ c.toNat = 0x205F ∨
  c.toNat = 0x3000 ∨ c.toNat = 0xFEFF

/-- Model of String.prototype.trim: drop ECMAScript whitespace from both
ends. -/
def strTrim (s : String) : String :=
  String.mk (((s.data.dropWhile jsWhitespace).reverse.dropWhile jsWhitespace).reverse)

/-- Model of String.prototype.length: the UTF-16 code-unit count — a code
point at or above 0x10000 occupies a surrogate pair and counts as two
units. -/
def utf16Length (s : String) : Nat :=
  (s.data.map (fun c => if c.toNat < 0x10000 then 1 else 2)).sum

/- ## Check-In Ledger (MindGuard.saveCheckIn, src/server.ts lines 485-562) -/

/-- One row of the check_ins table. -/
structure CheckInRow where
  id : String
  userId : String
  date : String
  emotionalTone : String
  summary : String
  recommendations : List String
  createdAt : String
deriving DecidableEq, Repr

/-- The valid tones list of saveCheckIn. -/
def validTones : List String := ["positive", "neutral", "negative"]

/-- The tone that saveCheckIn stores: the lowercased input when that is one of
the valid tones, else "neutral" (the code reassigns emotionalTone to
"neutral" when the lowercased input is not in validTones, then stores the
lowercased value). -/
def normalizeTone (tone : String) : String :=
  if validTones.contains (strToLower tone) then strToLower tone else "neutral"

/-- The WHERE clause of the existence check: user_id = u AND date = d. -/
def matchesKey (u d : String) (r : CheckInRow) : Bool :=
  r.userId = u ∧ r.date = d

/-- Number of check_ins rows for a (userId, date) key. -/
def countFor (u d : String) (db : List CheckInRow) : Nat :=
  db.countP (matchesKey u d)

/-- SELECT id FROM check_ins WHERE user_id = u AND date = d LIMIT 1, over the
table in insertion order. -/
def selectCheckIn (u d : String) (db : List CheckInRow) : Option CheckInRow :=
  db.find? (matchesKey u d)

/-- UPDATE check_ins SET ... WHERE id = targetId applied to one row. -/
def applyCheckInUpdate (tone summary : String) (recs : List String)
    (now targetId : String) (r : CheckInRow) : CheckInRow :=
  if r.id = targetId then
    { r with emotionalTone := tone, summary := summary,
             recommendations := recs, createdAt := now }
  else r

/-- MindGuard.saveCheckIn. The ambient userId, todays date, the generated id
and the current timestamp are explicit arguments; db is the check_ins table.
An error models the thrown exception (both validation throws happen before
any SQL runs). -/
def saveCheckIn (emotionalTone summary : String) (recommendations : List String)
    (userId date freshId now : String) (db : List CheckInRow) :
    Except String (List CheckInRow) :=
  if emotionalTone = "" ∨ summary = "" then
    Except.error "Emotional tone and summary are required"
  else
    let tone := normalizeTone emotionalTone
    match selectCheckIn userId date db with
    | some existing =>
        Except.ok (db.map (applyCheckInUpdate tone summary recommendations now existing.id))
    | none =>
        Except.ok (db ++ [⟨freshId, userId, date, tone, summary, recommendations, now⟩])

/- ### list helper lemmas -/

theorem find?_append_of_none {α} (p : α → Bool) (l₁ l₂ : List α)
    (h : l₁.find? p = none) : (l₁ ++ l₂).find? p = l₂.find? p := by
  induction l₁ with
  | nil => simp
  | cons a t ih =>
      by_cases hpa : p a
      · simp [List.find?_cons_of_pos _ hpa] at h
      · simp only [List.find?_cons_of_neg _ hpa] at h
        simpa [List.find?_cons_of_neg _ hpa] using ih h

theorem find?_map_of_pres {α} (p : α → Bool) (f : α → α) (l : List α)
    (hf : ∀ x, p (f x) = p x) : (l.map f).find? p = (l.find? p).map f := by
  induction l with
  | nil => simp
  | cons a t ih =>
      by_cases hpa : p a
      · have : p (f a) = true := by rw [hf]; exact hpa
        simp [List.find?_cons_of_pos _ hpa, List.find?_cons_of_pos _ this]
      · have : ¬ p (f a) = true := by rw [hf]; exact hpa
        simpa [List.find?_cons_of_neg _ hpa, List.find?_cons_of_neg _ this] using ih

theorem countP_map_of_pres {α} (p : α → Bool) (f : α → α) (l : List α)
    (hf : ∀ x, p (f x) = p x) : (l.map f).countP p = l.countP p := by
  induction l with
  | nil => simp
  | cons a t ih =>
      by_cases hpa : p a
      · have hfa : p (f a) = true := by rw [hf]; exact hpa
        simp [List.countP_cons, hpa, hfa, ih]
      · have hfa : p (f a) = false := by rw [hf]; simpa using hpa
        simp [List.countP_cons, hpa, hfa, ih]

/-- applyCheckInUpdate never changes the (userId, date) key of a row. -/
theorem matchesKey_applyCheckInUpdate (u d tone summary : String)
    (recs : List String) (now targetId : String) (r : CheckInRow) :
    matchesKey u d (applyCheckInUpdate tone summary recs now targetId r) =
      matchesKey u d r := by
  unfold applyCheckInUpdate
  split <;> rfl

/-- Correctness of one saveCheckIn call on a table satisfying the
at-most-one-row-per-key invariant: the call succeeds, afterwards the key has
exactly one row, and looking it up yields the values of this call. -/
theorem saveCheckIn_upsert (emotionalTone summary : String)
    (recommendations : List String) (userId date freshId now : String)
    (db : List CheckInRow) (ht : emotionalTone ≠ "") (hs : summary ≠ "")
    (hdb : countFor userId date db ≤ 1) :
    ∃ db', saveCheckIn emotionalTone summary recommendations userId date freshId now db
        = Except.ok db' ∧
      countFor userId date db' = 1 ∧
      ∃ row, selectCheckIn userId date db' = some row ∧
        row.userId = userId ∧ row.date = date ∧
        row.emotionalTone = normalizeTone emotionalTone ∧
        row.summary = summary ∧ row.recommendations = recommendations ∧
        row.createdAt = now := by
  unfold saveCheckIn
  rw [if_neg (by simp [ht, hs])]
  cases hfind : selectCheckIn userId date db with
  | none =>
      refine ⟨_, rfl, ?_, ?_⟩
      · have hzero : countFor userId date db = 0 := by
          unfold countFor
          rw [List.countP_eq_zero]
          intro a ha hpa
          unfold selectCheckIn at hfind
          rw [List.find?_eq_none] at hfind
          exact hfind a ha hpa
        unfold countFor at hzero ⊢
        rw [List.countP_append, hzero]
        simp [matchesKey]
      · refine ⟨⟨freshId, userId, date, normalizeTone emotionalTone, summary,
          recommendations, now⟩, ?_, rfl, rfl, rfl, rfl, rfl, rfl⟩
        unfold selectCheckIn at hfind ⊢
        rw [find?_append_of_none _ _ _ hfind]
        simp [List.find?, matchesKey]
  | some existing =>
      have hpres : ∀ r, matchesKey userId date
          (applyCheckInUpdate (normalizeTone emotionalTone) summary
            recommendations now existing.id r) = matchesKey userId date r :=
        fun r => matchesKey_applyCheckInUpdate _ _ _ _ _ _ _ r
      refine ⟨_, rfl, ?_, ?_⟩
      · have hone : 1 ≤ countFor userId date db := by
          unfold countFor
          rw [Nat.succ_le, List.countP_pos_iff]
          exact ⟨existing, List.mem_of_find?_eq_some hfind,
            List.find?_some hfind⟩
        have : countFor userId date db = 1 := Nat.le_antisymm hdb hone
        unfold countFor at this ⊢
        rw [countP_map_of_pres _ _ _ hpres, this]
      · unfold selectCheckIn at hfind ⊢
        rw [find?_map_of_pres _ _ _ hpres, hfind]
        have hk : matchesKey userId date existing = true := List.find?_some hfind
        simp only [matchesKey, decide_eq_true_eq] at hk
        refine ⟨_, rfl, ?_, ?_, ?_, ?_, ?_, ?_⟩ <;>
          simp [applyCheckInUpdate, hk.1, hk.2]

/-- C1: calling saveCheckIn (the Ledger upsert) twice on the same day for the
same user, with different summaries, leaves exactly one check_ins row for
that (userId, date), and that row holds the second calls tone, summary and
recommendations: the second write updates in place rather than inserting. -/
theorem saveCheckIn_twice_one_row (t1 s1 t2 s2 : String)
    (r1 r2 : List String) (userId date id1 id2 n1 n2 : String)
    (db : List CheckInRow)
    (ht1 : t1 ≠ "") (hs1 : s1 ≠ "") (ht2 : t2 ≠ "") (hs2 : s2 ≠ "")
    (hdb : countFor userId date db ≤ 1) :
    ∃ db1 db2,
      saveCheckIn t1 s1 r1 userId date id1 n1 db = Except.ok db1 ∧
      saveCheckIn t2 s2 r2 userId date id2 n2 db1 = Except.ok db2 ∧
      countFor userId date db2 = 1 ∧
      ∃ row, selectCheckIn userId date db2 = some row ∧
        row.emotionalTone = normalizeTone t2 ∧
        row.summary = s2 ∧ row.recommendations = r2 := by
  obtain ⟨db1, hok1, hcount1, -⟩ :=
    saveCheckIn_upsert t1 s1 r1 userId date id1 n1 db ht1 hs1 hdb
  obtain ⟨db2, hok2, hcount2, row, hsel, -, -, htone, hsum, hrecs, -⟩ :=
    saveCheckIn_upsert t2 s2 r2 userId date id2 n2 db1 ht2 hs2 hcount1.le
  exact ⟨db1, db2, hok1, hok2, hcount2, row, hsel, htone, hsum, hrecs⟩

/-- Witness for C1 at a concrete input: two same-day writes with different
summaries end in one row holding the second write. -/
theorem saveCheckIn_twice_one_row_witness :
    (("positive" : String) ≠ "" ∧ ("Day went well" : String) ≠ "" ∧
     ("negative" : String) ≠ "" ∧ ("Rough evening" : String) ≠ "" ∧
     countFor "default" "2026-02-03" [] ≤ 1) ∧
    (∃ db1 db2,
      saveCheckIn "positive" "Day went well" ["walk"] "default" "2026-02-03" "id1" "t1" []
        = Except.ok db1 ∧
      saveCheckIn "negative" "Rough evening" ["journal"] "default" "2026-02-03" "id2" "t2" db1
        = Except.ok db2 ∧
      countFor "default" "2026-02-03" db2 = 1 ∧
      ∃ row, selectCheckIn "default" "2026-02-03" db2 = some row ∧
        row.emotionalTone = normalizeTone "negative" ∧
        row.summary = "Rough evening" ∧ row.recommendations = ["journal"]) :=
  ⟨⟨by decide, by decide, by decide, by decide, by decide⟩,
    saveCheckIn_twice_one_row "positive" "Day went well" "negative" "Rough evening"
      ["walk"] ["journal"] "default" "2026-02-03" "id1" "id2" "t1" "t2" []
      (by decide) (by decide) (by decide) (by decide) (by decide)⟩

/-- C4 counterexample: the claim says an empty tone is coerced to "neutral";
in the code saveCheckIn throws before any write when the tone is empty, so
nothing is stored. -/
theorem saveCheckIn_empty_tone_throws :
    saveCheckIn "" "Feeling fine" [] "default" "2026-02-03" "id1" "t1" [] =
      Except.error "Emotional tone and summary are required" ∧
    ¬ ∃ db', saveCheckIn "" "Feeling fine" [] "default" "2026-02-03" "id1" "t1" []
      = Except.ok db' := by
  constructor
  · rfl
  · rintro ⟨db', h⟩
    simp [saveCheckIn] at h

/-- C4 amended: for every non-empty tone (and non-empty summary) the stored
emotionalTone is the lowercase of the input when that is one of
positive/neutral/negative and "neutral" otherwise; an empty tone makes
saveCheckIn throw and store nothing. -/
theorem saveCheckIn_tone_normalization (tone summary : String)
    (recs : List String) (userId date freshId now : String)
    (db : List CheckInRow) (ht : tone ≠ "") (hs : summary ≠ "")
    (hdb : countFor userId date db ≤ 1) :
    (∃ db', saveCheckIn tone summary recs userId date freshId now db
        = Except.ok db' ∧
      ∃ row, selectCheckIn userId date db' = some row ∧
        row.emotionalTone =
          (if validTones.contains (strToLower tone) then strToLower tone
           else "neutral")) ∧
    (∀ s' r' u' d' i' n' db'',
      saveCheckIn "" s' r' u' d' i' n' db''
        = Except.error "Emotional tone and summary are required") := by
  constructor
  · obtain ⟨db', hok, -, row, hsel, -, -, htone, -⟩ :=
      saveCheckIn_upsert tone summary recs userId date freshId now db ht hs hdb
    exact ⟨db', hok, row, hsel, htone⟩
  · intro s' r' u' d' i' n' db''
    simp [saveCheckIn]

/-- Witness for the amended C4: "POSITIVE" is stored as "positive" and
"bogus" is stored as "neutral". -/
theorem saveCheckIn_tone_normalization_witness :
    (("POSITIVE" : String) ≠ "" ∧ ("ok" : String) ≠ "" ∧
      countFor "default" "2026-02-03" [] ≤ 1) ∧
    (normalizeTone "POSITIVE" = "positive" ∧ normalizeTone "bogus" = "neutral") ∧
    (∃ db', saveCheckIn "POSITIVE" "ok" [] "default" "2026-02-03" "id1" "t1" []
        = Except.ok db' ∧
      ∃ row, selectCheckIn "default" "2026-02-03" db' = some row ∧
        row.emotionalTone =
          (if validTones.contains (strToLower "POSITIVE") then strToLower "POSITIVE"
           else "neutral")) ∧
    (∃ db', saveCheckIn "bogus" "ok" [] "default" "2026-02-03" "id1" "t1" []
        = Except.ok db' ∧
      ∃ row, selectCheckIn "default" "2026-02-03" db' = some row ∧
        row.emotionalTone =
          (if validTones.contains (strToLower "bogus") then strToLower "bogus"
           else "neutral")) :=
  ⟨⟨by decide, by decide, by decide⟩, ⟨by decide, by decide⟩,
    (saveCheckIn_tone_normalization "POSITIVE" "ok" [] "default" "2026-02-03"
      "id1" "t1" [] (by decide) (by decide) (by decide)).1,
    (saveCheckIn_tone_normalization "bogus" "ok" [] "default" "2026-02-03"
      "id1" "t1" [] (by decide) (by decide) (by decide)).1⟩

/- ## Scheduler (MindGuard.scheduleDailyCheckIn, src/server.ts lines 594-647,
and the earlier variant of the same method) -/

/-- One scheduled job as seen by scheduleDailyCheckIn: its id, the callback
it invokes, its cron trigger and its description payload. -/
structure ScheduledJob where
  id : String
  callback : String
  cron : String
  payload : String
deriving DecidableEq, Repr

/-- The anchored HH:MM regex of scheduleDailyCheckIn,
([0-1]?[0-9]|2[0-3]):[0-5][0-9], as a decision procedure on the character
list of the string. -/
def timeRegexTest (s : String) : Bool :=
  match s.data with
  | [h, ':', m1, m2] =>
      h.isDigit ∧ ('0' ≤ m1 ∧ m1 ≤ '5') ∧ m2.isDigit
  | [h1, h2, ':', m1, m2] =>
      ((('0' ≤ h1 ∧ h1 ≤ '1') ∧ h2.isDigit) ∨ (h1 = '2' ∧ ('0' ≤ h2 ∧ h2 ≤ '3')))
      ∧ ('0' ≤ m1 ∧ m1 ≤ '5') ∧ m2.isDigit
  | _ => false

/-- this.state?.preferences?.checkInTime || "09:00": an absent or empty
preference falls back to the default. -/
def resolveCheckInTime : Option String → String
  | none => "09:00"
  | some t => if t = "" then "09:00" else t

/-- The predicate of the duplicate check:
schedule.callback === "executeDailyCheckIn". -/
def isDailyCheckIn (s : ScheduledJob) : Bool :=
  s.callback = "executeDailyCheckIn"

/-- Number of scheduled jobs whose callback is executeDailyCheckIn. -/
def countDaily (l : List ScheduledJob) : Nat := l.countP isDailyCheckIn

/-- The job created by this.schedule(cronPattern, "executeDailyCheckIn",
"Daily wellness check-in"). -/
def newDailyJob (freshId cron : String) : ScheduledJob :=
  ⟨freshId, "executeDailyCheckIn", cron, "Daily wellness check-in"⟩

/-- MindGuard.scheduleDailyCheckIn as shipped in src/server.ts: the invalid
time format is a no-op, the duplicate check is a no-op, and otherwise one job
is appended — with the cron pattern hard-coded to "* * * * *" (the
TEMPORARY every-minute testing value left in the code). -/
def scheduleDailyCheckIn (pref : Option String) (freshId : String)
    (schedules : List ScheduledJob) : List ScheduledJob :=
  if timeRegexTest (resolveCheckInTime pref) then
    if schedules.any isDailyCheckIn then schedules
    else schedules ++ [newDailyJob freshId "* * * * *"]
  else schedules

/-- checkInTime.split(":") on the character list. -/
def splitColonAux : List Char → List Char → List (List Char)
  | [], acc => [acc.reverse]
  | c :: rest, acc =>
      if c = ':' then acc.reverse :: splitColonAux rest []
      else splitColonAux rest (c :: acc)

/-- Model of String.prototype.split(":"). -/
def splitColon (s : String) : List String :=
  (splitColonAux s.data []).map String.mk

/-- const [hour, minute] = checkInTime.split(":");
cronPattern = minute + " " + hour + " * * *". -/
def cronPatternOf (t : String) : String :=
  let parts := splitColon t
  (parts.getD 1 "") ++ " " ++ (parts.getD 0 "") ++ " * * *"

/-- The earlier variant of MindGuard.scheduleDailyCheckIn (the one whose cron
pattern is derived from checkInTime, as the spec describes). -/
def scheduleDailyCheckInV1 (pref : Option String) (freshId : String)
    (schedules : List ScheduledJob) : List ScheduledJob :=
  if timeRegexTest (resolveCheckInTime pref) then
    if schedules.any isDailyCheckIn then schedules
    else schedules ++ [newDailyJob freshId (cronPatternOf (resolveCheckInTime pref))]
  else schedules

/-- With a valid time and no existing daily check-in job, scheduleDailyCheckIn
appends exactly the new job. -/
theorem scheduleDailyCheckIn_inserts (pref : Option String) (fid : String)
    (s : List ScheduledJob)
    (hv : timeRegexTest (resolveCheckInTime pref) = true)
    (hc : s.any isDailyCheckIn = false) :
    scheduleDailyCheckIn pref fid s = s ++ [newDailyJob fid "* * * * *"] := by
  simp [scheduleDailyCheckIn, hv, hc]

/-- With a valid time and an existing daily check-in job, scheduleDailyCheckIn
is a no-op. -/
theorem scheduleDailyCheckIn_noop (pref : Option String) (fid : String)
    (s : List ScheduledJob)
    (hv : timeRegexTest (resolveCheckInTime pref) = true)
    (hc : s.any isDailyCheckIn = true) :
    scheduleDailyCheckIn pref fid s = s := by
  simp [scheduleDailyCheckIn, hv, hc]

/-- C2: with a well-formed check-in time and at most one existing daily
check-in job, calling scheduleDailyCheckIn twice in a row leaves exactly one
job whose callback is executeDailyCheckIn, and the second call changes
nothing: the operation checks the existing schedule list and never inserts a
second recurring daily check-in job. -/
theorem scheduleDailyCheckIn_no_duplicate (pref : Option String)
    (id1 id2 : String) (s : List ScheduledJob)
    (hv : timeRegexTest (resolveCheckInTime pref) = true)
    (h0 : countDaily s ≤ 1) :
    countDaily (scheduleDailyCheckIn pref id2 (scheduleDailyCheckIn pref id1 s)) = 1 ∧
    scheduleDailyCheckIn pref id2 (scheduleDailyCheckIn pref id1 s) =
      scheduleDailyCheckIn pref id1 s := by
  have hjob : isDailyCheckIn (newDailyJob id1 "* * * * *") = true := by
    simp [isDailyCheckIn, newDailyJob]
  cases hc : s.any isDailyCheckIn with
  | false =>
      have hzero : countDaily s = 0 := by
        unfold countDaily
        rw [List.countP_eq_zero]
        intro a ha hpa
        rw [List.any_eq_false] at hc
        exact hc a ha hpa
      have hany : (s ++ [newDailyJob id1 "* * * * *"]).any isDailyCheckIn = true := by
        rw [List.any_eq_true]
        exact ⟨newDailyJob id1 "* * * * *", by simp, hjob⟩
      rw [scheduleDailyCheckIn_inserts pref id1 s hv hc,
        scheduleDailyCheckIn_noop pref id2 _ hv hany]
      refine ⟨?_, rfl⟩
      unfold countDaily at hzero ⊢
      rw [List.countP_append, hzero, List.countP_cons]
      simp [hjob]
  | true =>
      rw [scheduleDailyCheckIn_noop pref id1 s hv hc,
        scheduleDailyCheckIn_noop pref id2 s hv hc]
      have hone : 1 ≤ countDaily s := by
        unfold countDaily
        rw [Nat.succ_le, List.countP_pos_iff]
        rw [List.any_eq_true] at hc
        exact hc
      exact ⟨Nat.le_antisymm h0 hone, rfl⟩

/-- Witness for C2: from an empty schedule list with the default check-in
time, two calls leave exactly one executeDailyCheckIn job. -/
theorem scheduleDailyCheckIn_no_duplicate_witness :
    (timeRegexTest (resolveCheckInTime none) = true ∧ countDaily [] ≤ 1) ∧
    (countDaily (scheduleDailyCheckIn none "id2" (scheduleDailyCheckIn none "id1" [])) = 1 ∧
     scheduleDailyCheckIn none "id2" (scheduleDailyCheckIn none "id1" []) =
       scheduleDailyCheckIn none "id1" []) :=
  ⟨⟨by decide, by decide⟩,
    scheduleDailyCheckIn_no_duplicate none "id1" "id2" [] (by decide) (by decide)⟩

/-- C7: the shipped scheduleDailyCheckIn validates the HH:MM format (an
invalid time creates no job) and checks before creating, but the job it
creates carries the every-minute testing pattern "* * * * *", not the
documented pattern derived from checkInTime; the earlier variant of the same
method creates "00 09 * * *" for a 09:00 check-in time, as the claim states. -/
theorem scheduleDailyCheckIn_cron_divergence :
    scheduleDailyCheckIn (some "09:00") "job1" [] =
      [⟨"job1", "executeDailyCheckIn", "* * * * *", "Daily wellness check-in"⟩] ∧
    scheduleDailyCheckInV1 (some "09:00") "job1" [] =
      [⟨"job1", "executeDailyCheckIn", "00 09 * * *", "Daily wellness check-in"⟩] ∧
    scheduleDailyCheckIn (some "25:99") "job1" [] = [] ∧
    scheduleDailyCheckInV1 (some "25:99") "job1" [] = [] ∧
    cronPatternOf "09:00" = "00 09 * * *" ∧
    ("* * * * *" : String) ≠ "00 09 * * *" := by
  refine ⟨by decide, by decide, by decide, by decide, by decide, by decide⟩

/- ## Preference Store (MindGuard.getAgentName lines 747-777 and
MindGuard.updateAgentName lines 782-822 of src/server.ts) -/

/-- Result of the SELECT agent_name query: either the returned rows (each
row carries a possibly-NULL agent_name) or a database error (the column may
not exist yet). -/
inductive AgentNameQuery where
  | ok (rows : List (Option String))
  | err
deriving DecidableEq, Repr

/-- MindGuard.getAgentName: the in-memory state value when truthy, else the
first persisted rows value when truthy, else "MindGuard"; a failing query is
caught and falls through to the default. -/
def getAgentName (stateAgentName : Option String) (db : AgentNameQuery) : String :=
  if jsTruthy stateAgentName then stateAgentName.getD ""
  else
    match db with
    | .err => "MindGuard"
    | .ok rows =>
        match rows.head? with
        | none => "MindGuard"
        | some firstName =>
            if jsTruthy firstName then firstName.getD "" else "MindGuard"

/-- A truthy optional string, or none. -/
def truthyOpt (s : Option String) : Option String :=
  s.bind (fun v => if v = "" then none else some v)

/-- The persisted rows truthy agent name, if the query succeeded and returned
one. -/
def dbFirstTruthyName : AgentNameQuery → Option String
  | .err => none
  | .ok rows => rows.head?.bind truthyOpt

/-- The contract stated by the spec for getAgentName: prefer the cached
in-memory value, else the persisted rows value, else the fallback default,
and never fail. -/
def agentNameSpec (stateAgentName : Option String) (db : AgentNameQuery) : String :=
  ((truthyOpt stateAgentName).or (dbFirstTruthyName db)).getD "MindGuard"

/-- C8: getAgentName is total and equals the spec contract on every input,
including a failing database query: the state value when present, else the
persisted value when present, else the default "MindGuard". -/
theorem getAgentName_total_fallback (stateAgentName : Option String)
    (db : AgentNameQuery) :
    getAgentName stateAgentName db = agentNameSpec stateAgentName db := by
  cases stateAgentName with
  | none =>
      cases db with
      | err => rfl
      | ok rows =>
          cases rows with
          | nil => rfl
          | cons firstName rest =>
              cases firstName with
              | none => rfl
              | some v =>
                  by_cases hv : v = "" <;>
                    simp [getAgentName, agentNameSpec, jsTruthy, truthyOpt,
                      dbFirstTruthyName, hv]
  | some sv =>
      by_cases hsv : sv = ""
      · subst hsv
        cases db with
        | err => rfl
        | ok rows =>
            cases rows with
            | nil => rfl
            | cons firstName rest =>
                cases firstName with
                | none => rfl
                | some v =>
                    by_cases hv : v = "" <;>
                      simp [getAgentName, agentNameSpec, jsTruthy, truthyOpt,
                        dbFirstTruthyName, hv]
      · simp [getAgentName, agentNameSpec, jsTruthy, truthyOpt, hsv]

/-- One row of the user_preferences table as touched by updateAgentName. -/
structure PrefRow where
  userId : String
  agentName : Option String
  updatedAt : String
deriving DecidableEq, Repr

/-- INSERT INTO user_preferences ... ON CONFLICT(user_id) DO UPDATE SET
agent_name, updated_at. -/
def upsertAgentName (userId name now : String) (db : List PrefRow) : List PrefRow :=
  if db.any (fun r => r.userId = userId) then
    db.map (fun r =>
      if r.userId = userId then { r with agentName := some name, updatedAt := now }
      else r)
  else db ++ [⟨userId, some name, now⟩]

/-- MindGuard.updateAgentName: rejects a name that is empty or blank after
trimming, rejects a raw name longer than 50, and otherwise upserts the
trimmed name. Both validation throws precede the SQL, so an error leaves the
table untouched. -/
def updateAgentName (newName : String) (userId now : String)
    (db : List PrefRow) : Except String (List PrefRow) :=
  if newName = "" ∨ strTrim newName = "" then
    Except.error "Agent name cannot be empty"
  else if 50 < utf16Length newName then
    Except.error "Agent name must be 50 characters or less"
  else
    Except.ok (upsertAgentName userId (strTrim newName) now db)

/-- C10: updateAgentName checks the 50-character limit on the raw, untrimmed
input — any raw name longer than 50 characters is rejected with no write,
even when its trimmed form is 50 characters or fewer; a blank-after-trim
name is rejected with no write; and exactly the names that are non-empty
after trimming and at most 50 characters raw are persisted, in trimmed
form. -/
theorem updateAgentName_raw_length_limit (newName userId now : String)
    (db : List PrefRow) :
    (50 < utf16Length newName →
      ∃ e, updateAgentName newName userId now db = Except.error e) ∧
    (50 < utf16Length newName → strTrim newName ≠ "" →
      updateAgentName newName userId now db =
        Except.error "Agent name must be 50 characters or less") ∧
    (strTrim newName = "" →
      updateAgentName newName userId now db =
        Except.error "Agent name cannot be empty") ∧
    (strTrim newName ≠ "" → utf16Length newName ≤ 50 →
      updateAgentName newName userId now db =
        Except.ok (upsertAgentName userId (strTrim newName) now db)) := by
  refine ⟨?_, ?_, ?_, ?_⟩
  · intro hlen
    by_cases htrim : strTrim newName = ""
    · exact ⟨"Agent name cannot be empty", by simp [updateAgentName, htrim]⟩
    · refine ⟨"Agent name must be 50 characters or less", ?_⟩
      have hne : ¬ (newName = "" ∨ strTrim newName = "") := by
        rintro (h | h)
        · subst h; exact absurd hlen (by decide)
        · exact htrim h
      simp [updateAgentName, hne, hlen]
  · intro hlen htrim
    have hne : ¬ (newName = "" ∨ strTrim newName = "") := by
      rintro (h | h)
      · subst h; exact absurd hlen (by decide)
      · exact htrim h
    simp [updateAgentName, hne, hlen]
  · intro htrim
    simp [updateAgentName, htrim]
  · intro htrim hlen
    have hne : ¬ (newName = "" ∨ strTrim newName = "") := by
      rintro (h | h)
      · subst h; exact htrim rfl
      · exact htrim h
    have hle : ¬ 50 < utf16Length newName := by omega
    simp [updateAgentName, hne, hle]

/-- Witness for C10: a 51-character raw name whose trimmed form has length 1
is rejected, while a name that trims to a short non-empty form is stored
trimmed. -/
theorem updateAgentName_raw_length_limit_witness :
    (50 < utf16Length (String.mk ('a' :: List.replicate 50 ' ')) ∧
     strTrim (String.mk ('a' :: List.replicate 50 ' ')) = "a" ∧
     utf16Length (strTrim (String.mk ('a' :: List.replicate 50 ' '))) ≤ 50) ∧
    (∃ e, updateAgentName (String.mk ('a' :: List.replicate 50 ' '))
      "default" "t0" [] = Except.error e) ∧
    (updateAgentName "  Buddy " "default" "t0" [] =
      Except.ok (upsertAgentName "default" (strTrim "  Buddy ") "t0" [])) :=
  ⟨⟨by decide, by decide, by decide⟩,
    (updateAgentName_raw_length_limit (String.mk ('a' :: List.replicate 50 ' '))
      "default" "t0" []).1 (by decide),
    (updateAgentName_raw_length_limit "  Buddy " "default" "t0" []).2.2.2
      (by decide) (by decide)⟩

/- ## Recommendation Selector (getMindfulnessRecommendations, src/app.tsx
lines 1049-1090, and the /internal/get-recommendations route of
MindGuard.onRequest, src/server.ts lines 946-982) -/

/-- The tone enum of the getMindfulnessRecommendations input schema. -/
inductive ToneLabel where
  | positive
  | neutral
  | negative
deriving DecidableEq, Repr

/-- The fixed positive list of getMindfulnessRecommendations. -/
def appPositiveRecs : List String :=
  ["Practice gratitude journaling - write down 3 things you\x27re grateful for today",
   "Share your positive energy with others - reach out to a friend or loved one",
   "Set new goals while feeling motivated - channel this energy into something meaningful",
   "Practice mindful appreciation - take a moment to fully experience this positive feeling"]

/-- The fixed neutral list of getMindfulnessRecommendations. -/
def appNeutralRecs : List String :=
  ["Take a mindful walk - focus on your breathing and surroundings",
   "Practice deep breathing exercises - 4-7-8 technique (inhale 4, hold 7, exhale 8)",
   "Try a new hobby or activity - explore something that interests you",
   "Practice body scan meditation - notice how each part of your body feels"]

/-- The fixed negative list of getMindfulnessRecommendations. -/
def appNegativeRecs : List String :=
  ["Practice 4-7-8 breathing technique - inhale for 4, hold for 7, exhale for 8",
   "Write down your feelings in a journal - express what you\x27re experiencing",
   "Try progressive muscle relaxation - tense and release each muscle group",
   "Consider talking to a trusted friend or professional - you don\x27t have to go through this alone",
   "Practice self-compassion - be kind to yourself, acknowledge that difficult emotions are valid"]

/-- The additional professional-support suggestion pushed for high-intensity
negative tone. -/
def professionalSupportRec : String :=
  "Consider reaching out to a mental health professional or crisis support line if needed"

/-- The getMindfulnessRecommendations tool of src/app.tsx: a fixed per-tone
list, with the professional-support suggestion appended when the tone is
negative and the intensity is at least 7. -/
def getMindfulnessRecommendations (emotionalTone : ToneLabel) (intensity : Nat) :
    List String :=
  let toneRecommendations :=
    match emotionalTone with
    | .positive => appPositiveRecs
    | .neutral => appNeutralRecs
    | .negative => appNegativeRecs
  if 7 ≤ intensity ∧ emotionalTone = ToneLabel.negative then
    toneRecommendations ++ [professionalSupportRec]
  else toneRecommendations

/-- C3: the selector is a pure function of (tone, intensity); for negative
tone and any intensity of at least 7 it returns the fixed negative list with
exactly one professional-support suggestion appended at the end (so the call
at intensity 8 always returns that same ordered list, whose final element is
the professional-support suggestion), and for negative tone below intensity
7 — in particular at 3 — the professional-support suggestion is absent. -/
theorem getMindfulnessRecommendations_negative_rule (i : Nat) (h : 7 ≤ i) :
    getMindfulnessRecommendations ToneLabel.negative i =
      appNegativeRecs ++ [professionalSupportRec] ∧
    getMindfulnessRecommendations ToneLabel.negative i =
      getMindfulnessRecommendations ToneLabel.negative 8 ∧
    (getMindfulnessRecommendations ToneLabel.negative i).getLast? =
      some professionalSupportRec ∧
    (getMindfulnessRecommendations ToneLabel.negative i).count
      professionalSupportRec = 1 ∧
    professionalSupportRec ∉ getMindfulnessRecommendations ToneLabel.negative 3 ∧
    (∀ j, j < 7 → getMindfulnessRecommendations ToneLabel.negative j =
      appNegativeRecs) := by
  have hbranch : getMindfulnessRecommendations ToneLabel.negative i =
      appNegativeRecs ++ [professionalSupportRec] := by
    unfold getMindfulnessRecommendations
    rw [if_pos ⟨h, rfl⟩]
  have hlow : ∀ j, j < 7 → getMindfulnessRecommendations ToneLabel.negative j =
      appNegativeRecs := by
    intro j hj
    unfold getMindfulnessRecommendations
    rw [if_neg]
    rintro ⟨h7, -⟩
    omega
  refine ⟨hbranch, ?_, ?_, ?_, ?_, hlow⟩
  · rw [hbranch]; decide
  · rw [hbranch]; decide
  · rw [hbranch]; decide
  · rw [hlow 3 (by omega)]; decide

/-- Witness for C3 at intensity 8. -/
theorem getMindfulnessRecommendations_negative_rule_witness :
    (7 ≤ 8) ∧
    (getMindfulnessRecommendations ToneLabel.negative 8 =
      appNegativeRecs ++ [professionalSupportRec] ∧
     (getMindfulnessRecommendations ToneLabel.negative 8).getLast? =
      some professionalSupportRec ∧
     professionalSupportRec ∉ getMindfulnessRecommendations ToneLabel.negative 3) :=
  ⟨by omega,
    (getMindfulnessRecommendations_negative_rule 8 (by omega)).1,
    (getMindfulnessRecommendations_negative_rule 8 (by omega)).2.2.1,
    (getMindfulnessRecommendations_negative_rule 8 (by omega)).2.2.2.2.1⟩

/-- The request body of POST /internal/get-recommendations: both fields are
optional in the parsed JSON. -/
structure RecRequestBody where
  emotionalTone : Option String
  intensity : Option Int
deriving DecidableEq, Repr

/-- The positive list of the /internal/get-recommendations route (three
items, distinct from the tool list in src/app.tsx). -/
def endpointPositiveRecs : List String :=
  ["Practice gratitude journaling - write down 3 things you\x27re grateful for today",
   "Share your positive energy with others - reach out to a friend or loved one",
   "Set new goals while feeling motivated - channel this energy into something meaningful"]

/-- The neutral list of the /internal/get-recommendations route. -/
def endpointNeutralRecs : List String :=
  ["Take a mindful walk - focus on your breathing and surroundings",
   "Practice deep breathing exercises - 4-7-8 technique",
   "Try a new hobby or activity - explore something that interests you"]

/-- The negative list of the /internal/get-recommendations route. -/
def endpointNegativeRecs : List String :=
  ["Practice 4-7-8 breathing technique - inhale for 4, hold for 7, exhale for 8",
   "Write down your feelings in a journal - express what you\x27re experiencing",
   "Consider talking to a trusted friend or professional - you don\x27t have to go through this alone"]

/-- Result of the JavaScript property read recommendations[key]: an own key
yields its list; a key inherited from Object.prototype yields the inherited
member (every such member — the methods and the __proto__ accessor — is a
truthy function or object); any other key yields undefined. -/
inductive JsLookup where
  | list (recs : List String)
  | protoMember (key : String)
  | undef
deriving DecidableEq, Repr

/-- The property keys an object literal inherits from Object.prototype, all
of which are truthy when read. -/
def objectPrototypeKeys : List String :=
  ["constructor", "hasOwnProperty", "isPrototypeOf", "propertyIsEnumerable",
   "toLocaleString", "toString", "valueOf", "__proto__",
   "__defineGetter__", "__defineSetter__", "__lookupGetter__", "__lookupSetter__"]

/-- recommendations[toneKey]: the own keys positive/neutral/negative first,
then the prototype chain, else undefined. -/
def recommendationsLookup (toneKey : String) : JsLookup :=
  if toneKey = "positive" then JsLookup.list endpointPositiveRecs
  else if toneKey = "neutral" then JsLookup.list endpointNeutralRecs
  else if toneKey = "negative" then JsLookup.list endpointNegativeRecs
  else if toneKey ∈ objectPrototypeKeys then JsLookup.protoMember toneKey
  else JsLookup.undef

/-- The || recommendations.neutral fallback: lists and inherited prototype
members are truthy and pass through unchanged; only undefined is falsy and
is replaced by the neutral list. -/
def recsOrNeutral : JsLookup → JsLookup
  | JsLookup.undef => JsLookup.list endpointNeutralRecs
  | JsLookup.list r => JsLookup.list r
  | JsLookup.protoMember k => JsLookup.protoMember k

/-- The POST /internal/get-recommendations handler body: it destructures only
emotionalTone (defaulting to "neutral"), lowercases it, reads
recommendations[toneKey] — a property read that walks the prototype chain —
and applies the || neutral fallback, which fires only when the read is
undefined. The intensity field of the body is never read. -/
def getRecommendationsRoute (body : RecRequestBody) : JsLookup :=
  recsOrNeutral (recommendationsLookup (strToLower (body.emotionalTone.getD "neutral")))

/-- A recommendationsLookup result that is a list is one of the three own
lists. -/
theorem recommendationsLookup_list_cases (k : String) (r : List String)
    (h : recommendationsLookup k = JsLookup.list r) :
    r = endpointPositiveRecs ∨ r = endpointNeutralRecs ∨ r = endpointNegativeRecs := by
  unfold recommendationsLookup at h
  split at h
  · exact Or.inl (by cases h; rfl)
  · split at h
    · exact Or.inr (Or.inl (by cases h; rfl))
    · split at h
      · exact Or.inr (Or.inr (by cases h; rfl))
      · split at h
        · simp at h
        · simp at h

/-- C9 counterexample: the tone "constructor" lowercases to itself and is
not an own key of the recommendations table, yet the route does not return
the neutral list — the property read hits the inherited, truthy
Object.prototype.constructor, so the || fallback never fires. -/
theorem getRecommendationsRoute_proto_key_counterexample :
    getRecommendationsRoute (RecRequestBody.mk (some "constructor") (some 5)) =
      JsLookup.protoMember "constructor" ∧
    getRecommendationsRoute (RecRequestBody.mk (some "constructor") (some 5)) ≠
      JsLookup.list endpointNeutralRecs ∧
    getRecommendationsRoute (RecRequestBody.mk (some "__proto__") (some 5)) =
      JsLookup.protoMember "__proto__" ∧
    ("constructor" : String) ∉ (["positive", "neutral", "negative"] : List String) := by
  refine ⟨by decide, by decide, by decide, by decide⟩

/-- C9 amended: the route is independent of intensity — two bodies with the
same emotionalTone yield the identical result whatever their intensity
fields; whenever the route returns a list, the professional-support item is
not in it; a tone whose lowercase is neither an own key nor a key inherited
from Object.prototype falls back to the neutral list; but a tone whose
lowercase is an inherited key (such as "constructor" or "__proto__")
bypasses the fallback and yields the truthy prototype member instead of the
neutral list. -/
theorem getRecommendationsRoute_intensity_blind (b1 b2 : RecRequestBody)
    (h : b1.emotionalTone = b2.emotionalTone) :
    getRecommendationsRoute b1 = getRecommendationsRoute b2 ∧
    (∀ l, getRecommendationsRoute b1 = JsLookup.list l →
      professionalSupportRec ∉ l) ∧
    (∀ t, b1.emotionalTone = some t →
      strToLower t ∉ (["positive", "neutral", "negative"] : List String) →
      strToLower t ∉ objectPrototypeKeys →
      getRecommendationsRoute b1 = JsLookup.list endpointNeutralRecs) ∧
    (∀ t, b1.emotionalTone = some t → strToLower t ∈ objectPrototypeKeys →
      getRecommendationsRoute b1 = JsLookup.protoMember (strToLower t)) := by
  refine ⟨by simp [getRecommendationsRoute, h], ?_, ?_, ?_⟩
  · intro l hl
    unfold getRecommendationsRoute at hl
    cases hrec : recommendationsLookup (strToLower (b1.emotionalTone.getD "neutral")) with
    | list r =>
        rw [hrec] at hl
        simp only [recsOrNeutral] at hl
        injection hl with hl'
        subst hl'
        rcases recommendationsLookup_list_cases _ _ hrec with hr | hr | hr <;>
          (subst hr; decide)
    | protoMember k =>
        rw [hrec] at hl
        simp only [recsOrNeutral] at hl
        exact absurd hl (by simp)
    | undef =>
        rw [hrec] at hl
        simp only [recsOrNeutral] at hl
        injection hl with hl'
        subst hl'
        decide
  · intro t ht hmem3 hmemp
    have h1 : ¬ strToLower t = "positive" := fun hx => hmem3 (by simp [hx])
    have h2 : ¬ strToLower t = "neutral" := fun hx => hmem3 (by simp [hx])
    have h3 : ¬ strToLower t = "negative" := fun hx => hmem3 (by simp [hx])
    simp [getRecommendationsRoute, recommendationsLookup, recsOrNeutral,
      ht, h1, h2, h3, hmemp]
  · intro t ht hmem
    have h1 : ¬ strToLower t = "positive" := by
      intro hx; rw [hx] at hmem; exact absurd hmem (by decide)
    have h2 : ¬ strToLower t = "neutral" := by
      intro hx; rw [hx] at hmem; exact absurd hmem (by decide)
    have h3 : ¬ strToLower t = "negative" := by
      intro hx; rw [hx] at hmem; exact absurd hmem (by decide)
    simp [getRecommendationsRoute, recommendationsLookup, recsOrNeutral,
      ht, h1, h2, h3, hmem]

/-- Witness for the amended C9: same tone "NEGATIVE" with intensities 2 and
9 yields the identical result, and an unrecognized tone "bogus" falls back
to the neutral list. -/
theorem getRecommendationsRoute_intensity_blind_witness :
    ((RecRequestBody.mk (some "NEGATIVE") (some 2)).emotionalTone =
      (RecRequestBody.mk (some "NEGATIVE") (some 9)).emotionalTone) ∧
    (getRecommendationsRoute (RecRequestBody.mk (some "NEGATIVE") (some 2)) =
      getRecommendationsRoute (RecRequestBody.mk (some "NEGATIVE") (some 9))) ∧
    ((RecRequestBody.mk (some "bogus") (some 4)).emotionalTone =
      (RecRequestBody.mk (some "bogus") (some 4)).emotionalTone) ∧
    (getRecommendationsRoute (RecRequestBody.mk (some "bogus") (some 4)) =
      JsLookup.list endpointNeutralRecs) :=
  ⟨rfl,
    (getRecommendationsRoute_intensity_blind
      (RecRequestBody.mk (some "NEGATIVE") (some 2))
      (RecRequestBody.mk (some "NEGATIVE") (some 9)) rfl).1,
    rfl,
    (getRecommendationsRoute_intensity_blind
      (RecRequestBody.mk (some "bogus") (some 4))
      (RecRequestBody.mk (some "bogus") (some 4)) rfl).2.2.1
      "bogus" rfl (by decide) (by decide)⟩

/- ## Check-In Orchestrator (CheckInWorkflow.run,
src/workflows/checkInWorkflow.ts) -/

/-- The parsed body of a successful /internal/analyze-tone response. -/
structure ToneAnalysis where
  tone : String
  intensity : Nat
  keywords : List String
deriving DecidableEq, Repr

/-- The external responses one workflow run observes: whether each HTTP call
returns ok, and whether the awaited user-reply event arrives before the
24-hour timeout (none models the timeout). A none analyzeResponse or
recsResponse models a non-ok HTTP response of that step. -/
structure WfEnv where
  sendCheckInOk : Bool
  replyEvent : Option String
  analyzeResponse : Option ToneAnalysis
  recsResponse : Option (List String)
  saveOk : Bool
  sendSummaryOk : Bool
deriving DecidableEq, Repr

/-- The externally visible calls a workflow run makes, in order. -/
inductive WfAction where
  | sendCheckInMessage (msg : String)
  | analyzeTone (text : String)
  | getRecommendations (tone : String) (intensity : Nat)
  | saveCheckInCall (tone summary : String) (recs : List String)
  | sendMessage (msg : String)
deriving DecidableEq, Repr

/-- Outcome of one workflow run: the calls made and the error a throwing
step propagated (none when the run completed). -/
structure WfResult where
  actions : List WfAction
  error : Option String
deriving DecidableEq, Repr

/-- The fixed check-in greeting of step send-check-in-message. -/
def checkInPrompt : String :=
  "Good morning! 🌅 It\x27s time for your daily check-in. How are you feeling today? Take a moment to reflect on your emotional state and share what\x27s on your mind."

/-- The fixed reminder of step handle-timeout. -/
def timeoutReminder : String :=
  "I noticed you haven\x27t responded to today\x27s check-in. That\x27s okay! Feel free to share how you\x27re feeling whenever you\x27re ready. I\x27m here for you. 💙"

/-- userResponseText.substring(0, 200). -/
def strTake (s : String) (n : Nat) : String := String.mk (s.data.take n)

/-- The summary composed by step save-check-in. -/
def checkInSummaryText (tone replyText : String) : String :=
  "Daily check-in: User reported feeling " ++ tone ++ ". Response: " ++
    strTake replyText 200 ++ "..."

/-- The numbered recommendation listing of step send-summary. -/
def numberedRecs (recs : List String) : String :=
  String.intercalate "\n"
    (recs.enum.map (fun p => toString (p.1 + 1) ++ ". " ++ p.2))

/-- The summary message of step send-summary. -/
def summaryMessageText (tone : String) (recs : List String) : String :=
  "Thank you for your check-in! Based on your response, I\x27ve noted that you\x27re feeling "
    ++ tone ++ ". Here are some personalized recommendations:\n\n"
    ++ numberedRecs recs ++ "\n\nTake care! 💙"

/-- CheckInWorkflow.run for one attempt of each step: each step.do body that
sees a non-ok response throws, which ends the run with that error (the
handle-timeout step does not check its response and cannot throw). The
intensity forwarded to get-recommendations is analysis.intensity || 5. -/
def checkInRun (env : WfEnv) : WfResult :=
  if env.sendCheckInOk = false then
    { actions := [WfAction.sendCheckInMessage checkInPrompt],
      error := some "Failed to send check-in message" }
  else
    match env.replyEvent with
    | none =>
        { actions := [WfAction.sendCheckInMessage checkInPrompt,
                      WfAction.sendMessage timeoutReminder],
          error := none }
    | some userResponseText =>
        match env.analyzeResponse with
        | none =>
            { actions := [WfAction.sendCheckInMessage checkInPrompt,
                          WfAction.analyzeTone userResponseText],
              error := some "Failed to analyze tone" }
        | some analysis =>
            let sentIntensity := if analysis.intensity = 0 then 5 else analysis.intensity
            match env.recsResponse with
            | none =>
                { actions := [WfAction.sendCheckInMessage checkInPrompt,
                              WfAction.analyzeTone userResponseText,
                              WfAction.getRecommendations analysis.tone sentIntensity],
                  error := some "Failed to get recommendations" }
            | some recs =>
                let summary := checkInSummaryText analysis.tone userResponseText
                if env.saveOk = false then
                  { actions := [WfAction.sendCheckInMessage checkInPrompt,
                                WfAction.analyzeTone userResponseText,
                                WfAction.getRecommendations analysis.tone sentIntensity,
                                WfAction.saveCheckInCall analysis.tone summary recs],
                    error := some "Failed to save check-in" }
                else if env.sendSummaryOk = false then
                  { actions := [WfAction.sendCheckInMessage checkInPrompt,
                                WfAction.analyzeTone userResponseText,
                                WfAction.getRecommendations analysis.tone sentIntensity,
                                WfAction.saveCheckInCall analysis.tone summary recs,
                                WfAction.sendMessage (summaryMessageText analysis.tone recs)],
                    error := some "Failed to send summary" }
                else
                  { actions := [WfAction.sendCheckInMessage checkInPrompt,
                                WfAction.analyzeTone userResponseText,
                                WfAction.getRecommendations analysis.tone sentIntensity,
                                WfAction.saveCheckInCall analysis.tone summary recs,
                                WfAction.sendMessage (summaryMessageText analysis.tone recs)],
                    error := none }

/-- Is this action a POST to /internal/send-message? -/
def isSendMessageAction : WfAction → Bool
  | .sendMessage _ => true
  | _ => false

/-- Is this action a POST to /internal/save-check-in (a Ledger write)? -/
def isSaveAction : WfAction → Bool
  | .saveCheckInCall _ _ _ => true
  | _ => false

/-- Is this action a POST to /internal/get-recommendations? -/
def isRecAction : WfAction → Bool
  | .getRecommendations _ _ => true
  | _ => false

/-- C6: a run whose check-in prompt was delivered and whose awaited reply
event never arrives takes the timeout branch: it completes without error,
sends exactly one message — the fixed reminder — and performs zero Ledger
writes. -/
theorem checkInRun_timeout_no_write (env : WfEnv)
    (h1 : env.sendCheckInOk = true) (h2 : env.replyEvent = none) :
    checkInRun env =
      { actions := [WfAction.sendCheckInMessage checkInPrompt,
                    WfAction.sendMessage timeoutReminder], error := none } ∧
    ((checkInRun env).actions.filter isSendMessageAction).length = 1 ∧
    (checkInRun env).actions.filter isSendMessageAction =
      [WfAction.sendMessage timeoutReminder] ∧
    ((checkInRun env).actions.filter isSaveAction).length = 0 ∧
    (checkInRun env).error = none := by
  have hrun : checkInRun env =
      { actions := [WfAction.sendCheckInMessage checkInPrompt,
                    WfAction.sendMessage timeoutReminder], error := none } := by
    simp [checkInRun, h1, h2]
  refine ⟨hrun, ?_, ?_, ?_, ?_⟩ <;> rw [hrun] <;> rfl

/-- Witness for C6 at a concrete environment with no reply event. -/
theorem checkInRun_timeout_no_write_witness :
    ((WfEnv.mk true none none none true true).sendCheckInOk = true ∧
     (WfEnv.mk true none none none true true).replyEvent = none) ∧
    (checkInRun (WfEnv.mk true none none none true true) =
      { actions := [WfAction.sendCheckInMessage checkInPrompt,
                    WfAction.sendMessage timeoutReminder], error := none } ∧
     ((checkInRun (WfEnv.mk true none none none true true)).actions.filter
        isSendMessageAction).length = 1 ∧
     (checkInRun (WfEnv.mk true none none none true true)).actions.filter
        isSendMessageAction = [WfAction.sendMessage timeoutReminder] ∧
     ((checkInRun (WfEnv.mk true none none none true true)).actions.filter
        isSaveAction).length = 0 ∧
     (checkInRun (WfEnv.mk true none none none true true)).error = none) :=
  ⟨⟨rfl, rfl⟩,
    checkInRun_timeout_no_write (WfEnv.mk true none none none true true) rfl rfl⟩

/-- A concrete run in which the reply arrives in time and the tone-analysis
call returns a non-ok response. -/
def envAnalyzeFail : WfEnv :=
  { sendCheckInOk := true, replyEvent := some "Not great honestly",
    analyzeResponse := none, recsResponse := some ["rest"],
    saveOk := true, sendSummaryOk := true }

/-- C5 counterexample: with the reply in hand, a failing tone-analysis step
throws and ends the run with an error — the run does not continue with a
neutral/intensity-5 default: no recommendation call, no Ledger write and no
summary message happen. -/
theorem checkInRun_analyze_failure_counterexample :
    (checkInRun envAnalyzeFail).error = some "Failed to analyze tone" ∧
    (checkInRun envAnalyzeFail).actions =
      [WfAction.sendCheckInMessage checkInPrompt,
       WfAction.analyzeTone "Not great honestly"] ∧
    ((checkInRun envAnalyzeFail).actions.filter isRecAction).length = 0 ∧
    ((checkInRun envAnalyzeFail).actions.filter isSaveAction).length = 0 ∧
    ((checkInRun envAnalyzeFail).actions.filter isSendMessageAction).length = 0 ∧
    WfAction.getRecommendations "neutral" 5 ∉ (checkInRun envAnalyzeFail).actions := by
  refine ⟨rfl, rfl, rfl, rfl, rfl, by decide⟩

/-- C5 amended: in a cycle where the reply arrives before the timeout, a
failure of the tone-analysis step terminates the cycle with an error rather
than defaulting the tone — the run performs no recommendation call, no
Ledger write and sends no further message. (The neutral/intensity-5 values
arise only inside a successful /internal/analyze-tone response when no
sentiment keyword matches.) -/
theorem checkInRun_analyze_failure_aborts (env : WfEnv) (t : String)
    (h1 : env.sendCheckInOk = true) (h2 : env.replyEvent = some t)
    (h3 : env.analyzeResponse = none) :
    (checkInRun env).error = some "Failed to analyze tone" ∧
    (checkInRun env).actions =
      [WfAction.sendCheckInMessage checkInPrompt, WfAction.analyzeTone t] ∧
    ((checkInRun env).actions.filter isRecAction).length = 0 ∧
    ((checkInRun env).actions.filter isSaveAction).length = 0 ∧
    ((checkInRun env).actions.filter isSendMessageAction).length = 0 := by
  have hrun : checkInRun env =
      { actions := [WfAction.sendCheckInMessage checkInPrompt,
                    WfAction.analyzeTone t],
        error := some "Failed to analyze tone" } := by
    simp [checkInRun, h1, h2, h3]
  refine ⟨?_, ?_, ?_, ?_, ?_⟩ <;> rw [hrun] <;> rfl

/-- Witness for the amended C5 at the concrete failing environment. -/
theorem checkInRun_analyze_failure_aborts_witness :
    (envAnalyzeFail.sendCheckInOk = true ∧
     envAnalyzeFail.replyEvent = some "Not great honestly" ∧
     envAnalyzeFail.analyzeResponse = none) ∧
    ((checkInRun envAnalyzeFail).error = some "Failed to analyze tone" ∧
     (checkInRun envAnalyzeFail).actions =
      [WfAction.sendCheckInMessage checkInPrompt,
       WfAction.analyzeTone "Not great honestly"] ∧
     ((checkInRun envAnalyzeFail).actions.filter isRecAction).length = 0 ∧
     ((checkInRun envAnalyzeFail).actions.filter isSaveAction).length = 0 ∧
     ((checkInRun envAnalyzeFail).actions.filter isSendMessageAction).length = 0) :=
  ⟨⟨rfl, rfl, rfl⟩,
    checkInRun_analyze_failure_aborts envAnalyzeFail "Not great honestly" rfl rfl rfl⟩
